import Mathlib

/-!
Verification of the ws2wh gateway server (`src/server/server.go`) against its
natural-language specification.

The Go file is shallowly embedded below.  Sessions are identified by their
registry key (a `String`); the `*session.Session` pointer stored in the map is
abstracted as an opaque reference (`SessionRef := Nat`), since the server code
only stores, looks up, and invokes methods on these pointers.  The Go map
`sessions map[string]*session.Session` is embedded as an association list with
Go map semantics (assignment replaces, delete removes, lookup returns the
value or nil).  The observable behaviour of the HTTP handlers is captured as a
list of effects (JSON responses written, Send/Close invocations on a session,
error logging, and nil-pointer panics), in the order the Go statements execute.
-/

namespace Ws2wh

/-- An abstract reference standing for a `*session.Session` pointer. -/
abbrev SessionRef := Nat

/-- The `sessions map[string]*session.Session` field of `Server`, embedded as
an association list with unique keys (Go map semantics). -/
abbrev Registry := List (String × SessionRef)

/-- Go map read `s.sessions[id]`: returns the stored pointer, or `none`
standing for Go's nil when the key is absent. -/
def lookupSession (reg : Registry) (id : String) : Option SessionRef :=
  match reg with
  | [] => none
  | (k, v) :: rest => if k = id then some v else lookupSession rest id

/-- Go map assignment `s.sessions[id] = session.NewSession(...)`
(server.go line 86): sets the binding, replacing any existing value under the
same key.  There is no duplicate check in the source. -/
def registerSession (reg : Registry) (id : String) (s : SessionRef) : Registry :=
  match reg with
  | [] => [(id, s)]
  | (k, v) :: rest =>
    if k = id then (id, s) :: rest else (k, v) :: registerSession rest id s

/-- Go `delete(s.sessions, id)` (server.go line 93, deferred): removes the
binding if present, no-op otherwise. -/
def removeSession (reg : Registry) (id : String) : Registry :=
  match reg with
  | [] => []
  | (k, v) :: rest =>
    if k = id then rest else (k, v) :: removeSession rest id

/-- One observable step of the `send` reply handler (server.go lines 100-123):
a JSON response written via `c.JSON`, a `session.Send(body)` call, a
`session.Close()` call, a `c.Logger().Error(err)` call, or a nil-pointer
panic raised inside a method invoked on a nil `*session.Session`. -/
inductive Effect where
  | jsonResponse (status : Nat) (success : Bool) (message : Option String)
  | sendCall (sess : SessionRef) (payload : List Nat)
  | closeCall (sess : SessionRef)
  | logError
  | nilPanic (method : String)
  deriving DecidableEq, Repr

/-- Effects of `send` when `s.sessions[id]` returned a non-nil session
(server.go lines 110-122): `if len(body) > 0` then `session.Send(body)`;
then, if the command header carries the terminate command, `session.Close()`
whose error, if any, is logged; finally `return c.JSON(http.StatusOK,
SessionResponse with Success true)`. -/
def sendEffectsFound (s : SessionRef) (body : List Nat) (terminate : Bool)
    (closeErr : Option Unit) : List Effect :=
  (if body.length > 0 then [Effect.sendCall s body] else [])
    ++ (if terminate then
          Effect.closeCall s :: (if closeErr.isSome then [Effect.logError] else [])
        else [])
    ++ [Effect.jsonResponse 200 true none]

/-- Effects of `send` when `s.sessions[id]` returned nil (server.go lines
106-122).  The source writes the 404 response but does not return, so the
remaining statements still execute on the nil pointer: with a non-empty body,
`session.Send(body)` dereferences nil and panics; otherwise, if the terminate
header is set, `session.Close()` dereferences nil and panics; otherwise the
handler falls through to `c.JSON(http.StatusOK, ...)` and writes a success
acknowledgment as well. -/
def sendEffectsNotFound (body : List Nat) (terminate : Bool) : List Effect :=
  Effect.jsonResponse 404 false (some "NOT_FOUND") ::
    (if body.length > 0 then [Effect.nilPanic "Send"]
     else if terminate then [Effect.nilPanic "Close"]
     else [Effect.jsonResponse 200 true none])

/-- The `send` reply handler, `func (s *Server) send(c echo.Context) error`
(server.go lines 100-123).  Inputs: the current registry, the `:id` route
parameter, the bytes `io.ReadAll` returned (possibly partial), the error
`io.ReadAll` returned (discarded by the source: `body, _ = io.ReadAll(...)`),
whether the `backend.CommandHeader` equals `backend.TerminateSessionCommand`,
and the error `session.Close()` would return.  Output: the registry after the
call (the handler never writes `s.sessions`) and the ordered effect trace. -/
def send (reg : Registry) (id : String) (body : List Nat) (readErr : Option Unit)
    (terminate : Bool) (closeErr : Option Unit) : Registry × List Effect :=
  match lookupSession reg id with
  | none => (reg, sendEffectsNotFound body terminate)
  | some s => (reg, sendEffectsFound s body terminate closeErr)

/-- `strings.TrimRight(replyPathPrefix, "/")` (server.go line 59): drops the
trailing run of slash characters. -/
def trimRightSlash (s : String) : String :=
  String.mk ((s.toList.reverse.dropWhile (fun c => c == '/')).reverse)

/-- The route path the reply endpoint is registered at,
`fmt.Sprintf("%s/:id", strings.TrimRight(replyPathPrefix, "/"))`
(server.go line 59); `p` is the configured replyPathPrefix. -/
def replyPath (p : String) : String :=
  trimRightSlash p ++ "/:id"

/-- The advertised reply address,
`fmt.Sprintf("%s://%s/reply/%s", c.Scheme(), c.Request().Host, id)`
(server.go line 89).  The path segment is the literal string "/reply/"; the
configured replyPathPrefix does not occur in this expression. -/
def replyChannel (scheme host id : String) : String :=
  scheme ++ "://" ++ host ++ "/reply/" ++ id

/-- One step in the control flow of the `handle` upgrade handler
(server.go lines 82-98), as observed at the gateway: registering the new
session, spawning the `Receive` goroutine (`go s.sessions[id].Receive()`),
running the blocking WebSocket handler (`handler.Handle(...)`), the deferred
`delete(s.sessions, id)` that fires when `handle` returns, and — for stating
the spec's trigger claim — a synchronization on the exit of `Receive`. -/
inductive HandleEvent where
  | register (id : String) (sess : SessionRef)
  | goReceive (sess : SessionRef)
  | runWsHandler
  | removeFromRegistry (id : String)
  | receiveExit (sess : SessionRef)
  deriving DecidableEq, Repr

/-- The gateway-side event trace of one `handle` invocation (server.go lines
82-98): the session is registered, `Receive` is spawned with `go` (detached:
no statement in server.go waits for or reacts to its exit), the WebSocket
handler runs until the connection ends, and the deferred delete fires when
`handle` returns. -/
def handle (id : String) (sess : SessionRef) : List HandleEvent :=
  [HandleEvent.register id sess, HandleEvent.goReceive sess,
   HandleEvent.runWsHandler, HandleEvent.removeFromRegistry id]

/-- The spec's trigger condition for C6, as a necessary condition: if a
removal occurs in the gateway trace, it was triggered by the exit of the
inbound relay loop, so some receive-exit synchronization occurs in the
trace. -/
def removalTriggeredByReceiveExit (t : List HandleEvent) : Prop :=
  ∀ id, HandleEvent.removeFromRegistry id ∈ t →
    ∃ s, HandleEvent.receiveExit s ∈ t

end Ws2wh

namespace Ws2wh

/-- C1: at an unknown session id, `send` writes the 404 NOT_FOUND response but,
lacking a return, does not stop: with a non-empty body it invokes `Send` on
the nil session (nil-pointer panic); with an empty body and no terminate
header it falls through and also writes the success acknowledgment.  This
contradicts the claim that a NOT_FOUND reply has no side effects and no
success acknowledgment. -/
theorem c1_unknown_session_fallthrough :
    (send [] "missing" [7] none false none).2 =
      [Effect.jsonResponse 404 false (some "NOT_FOUND"), Effect.nilPanic "Send"] ∧
    (send [] "missing" [] none false none).2 =
      [Effect.jsonResponse 404 false (some "NOT_FOUND"),
       Effect.jsonResponse 200 true none] := by
  constructor <;> rfl

/-- C3: with configured reply path "/callback" the reply route is registered
at "/callback/:id", yet the reply address advertised to the backend is
"http://example.com/reply/abc" — the "/reply/" segment is hardcoded in
`handle` and ignores the configuration, so the advertised address does not
match the claimed scheme://host/replyPathPrefix/id format. -/
theorem c3_reply_address_hardcoded :
    replyPath "/callback" = "/callback/:id" ∧
    replyChannel "http" "example.com" "abc" = "http://example.com/reply/abc" := by
  constructor <;> rfl

/-- C7 counterexample: registering session 2 under key "a" in a registry that
already maps "a" to session 1 does not fail and does not preserve the old
binding — the lookup afterwards returns the new session 2, so registration
replaced the existing session rather than failing with DuplicateId. -/
theorem c7_duplicate_register_replaces :
    lookupSession (registerSession [("a", 1)] "a" 2) "a" = some 2 ∧
    lookupSession [("a", 1)] "a" = some 1 := by
  constructor <;> rfl

/-- C7 amended: registration is a plain Go map assignment — it always makes
the key map to the newly supplied session, replacing any existing binding;
no DuplicateId failure exists in the code. -/
theorem c7_register_always_overwrites (reg : Registry) (id : String) (s : SessionRef) :
    lookupSession (registerSession reg id s) id = some s := by
  induction reg with
  | nil => simp [registerSession, lookupSession]
  | cons kv rest ih =>
    obtain ⟨k, v⟩ := kv
    by_cases h : k = id
    · simp [registerSession, lookupSession, h]
    · simp [registerSession, lookupSession, h, ih]

/-- C2: if the reply handler invokes `Send` on some session, that session is
exactly the one the registry maps the route's id to — a payload is never
delivered to a session registered under a different identifier. -/
theorem c2_no_cross_talk (reg : Registry) (id : String) (body : List Nat)
    (readErr : Option Unit) (terminate : Bool) (closeErr : Option Unit)
    (sess : SessionRef) (payload : List Nat)
    (h : Effect.sendCall sess payload ∈ (send reg id body readErr terminate closeErr).2) :
    lookupSession reg id = some sess := by
  unfold send at h
  cases hl : lookupSession reg id with
  | none =>
    rw [hl] at h
    simp only [sendEffectsNotFound, List.mem_cons] at h
    rcases h with h | h
    · exact absurd h (by simp)
    · split at h
      · simp_all
      · split at h <;> simp_all
  | some s =>
    rw [hl] at h
    simp only [sendEffectsFound, List.mem_append, List.mem_cons] at h
    rcases h with (h | h) | h
    · split at h <;> simp_all
    · split at h <;> simp_all
    · simp_all

/-- C2 witness: in a registry holding two sessions, a reply addressed to "a"
whose trace contains a Send is routed to the session registered under "a". -/
theorem c2_no_cross_talk_witness :
    lookupSession [("a", 1), ("b", 2)] "a" = some 1 :=
  c2_no_cross_talk [("a", 1), ("b", 2)] "a" [7] none false none 1 [7] (by decide)

/-- C4: for a registered session, a non-empty body causes exactly one `Send`
with exactly that body, and every `Send` the handler performs carries that
body and targets that session; with an empty body no `Send` occurs (any
Send in the trace would force the body to be non-empty). -/
theorem c4_send_iff_nonempty_body (reg : Registry) (id : String) (body : List Nat)
    (readErr : Option Unit) (terminate : Bool) (closeErr : Option Unit)
    (sess : SessionRef) (h : lookupSession reg id = some sess) :
    (body ≠ [] → Effect.sendCall sess body ∈ (send reg id body readErr terminate closeErr).2) ∧
    (∀ s p, Effect.sendCall s p ∈ (send reg id body readErr terminate closeErr).2 →
      s = sess ∧ p = body ∧ body ≠ []) := by
  constructor
  · intro hb
    have hb' : body.length > 0 := List.length_pos.mpr hb
    simp [send, h, sendEffectsFound, hb']
  · intro s p hmem
    simp only [send, h, sendEffectsFound, List.mem_append, List.mem_cons] at hmem
    rcases hmem with (hm | hm) | hm
    · by_cases hb : body.length > 0
      · simp only [if_pos hb, List.mem_singleton] at hm
        obtain ⟨hs, hp⟩ := Effect.sendCall.inj hm
        exact ⟨hs, hp, List.length_pos.mp hb⟩
      · simp [if_neg hb] at hm
    · split at hm <;> simp_all
    · simp_all

/-- C4 witness: with session 1 registered under "a" and body 0x07, the Send
appears in the trace and every Send in the trace carries body 0x07 to
session 1. -/
theorem c4_send_iff_nonempty_body_witness :
    (([7] : List Nat) ≠ [] →
      Effect.sendCall 1 [7] ∈ (send [("a", 1)] "a" [7] none false none).2) ∧
    (∀ s p, Effect.sendCall s p ∈ (send [("a", 1)] "a" [7] none false none).2 →
      s = 1 ∧ p = [7] ∧ ([7] : List Nat) ≠ []) :=
  c4_send_iff_nonempty_body [("a", 1)] "a" [7] none false none 1 rfl

/-- C5: for a registered session, a reply carrying the termination directive
causes `Close` on that session, placed so that no `Send` occurs after it;
a Close error is logged; and the HTTP response written last is 200 with
success true, regardless of the Close error. -/
theorem c5_close_logs_error_acks_success (reg : Registry) (id : String)
    (body : List Nat) (readErr : Option Unit) (closeErr : Option Unit)
    (sess : SessionRef) (h : lookupSession reg id = some sess) :
    ∃ pre post,
      (send reg id body readErr true closeErr).2 = pre ++ Effect.closeCall sess :: post ∧
      (∀ s p, Effect.sendCall s p ∉ post) ∧
      (closeErr.isSome → Effect.logError ∈ (send reg id body readErr true closeErr).2) ∧
      ((send reg id body readErr true closeErr).2).getLast? =
        some (Effect.jsonResponse 200 true none) := by
  refine ⟨if body.length > 0 then [Effect.sendCall sess body] else [],
    (if closeErr.isSome then [Effect.logError] else [])
      ++ [Effect.jsonResponse 200 true none], ?_, ?_, ?_, ?_⟩ <;>
    by_cases hb : body.length > 0 <;> cases closeErr <;>
      simp [send, h, sendEffectsFound, hb]

/-- C5 witness: session 1 registered under "a", terminate header set, Close
returning an error: the trace ends Close, log, success acknowledgment, with
the Send (if any) before the Close. -/
theorem c5_close_logs_error_acks_success_witness :
    ∃ pre post,
      (send [("a", 1)] "a" [7] none true (some ())).2 =
        pre ++ Effect.closeCall 1 :: post ∧
      (∀ s p, Effect.sendCall s p ∉ post) ∧
      ((some () : Option Unit).isSome →
        Effect.logError ∈ (send [("a", 1)] "a" [7] none true (some ())).2) ∧
      ((send [("a", 1)] "a" [7] none true (some ())).2).getLast? =
        some (Effect.jsonResponse 200 true none) :=
  c5_close_logs_error_acks_success [("a", 1)] "a" [7] none (some ()) 1 rfl

/-- C6 counterexample: the gateway trace of `handle` removes the session from
the registry, yet contains no synchronization on the exit of `Receive` —
the goroutine is spawned detached and nothing in server.go reacts to its
exit; removal is the deferred delete that fires when `handle` itself
returns.  So the claimed trigger (exit of the inbound relay loop) is not
what triggers the removal. -/
theorem c6_removal_not_triggered_by_receive_exit :
    ¬ removalTriggeredByReceiveExit (handle "a" 0) := by
  intro h
  obtain ⟨s, hs⟩ := h "a" (by simp [handle])
  simp [handle] at hs

/-- C6 amended: per `handle` invocation, the session is registered exactly
once and removed from the registry exactly once, and the removal is the last
step, immediately after the WebSocket handler returns (the deferred delete),
with the `Receive` goroutine spawned detached before that. -/
theorem c6_insert_remove_once_on_handler_return (id : String) (sess : SessionRef) :
    handle id sess =
      [HandleEvent.register id sess, HandleEvent.goReceive sess,
       HandleEvent.runWsHandler, HandleEvent.removeFromRegistry id] ∧
    (handle id sess).count (HandleEvent.register id sess) = 1 ∧
    (handle id sess).count (HandleEvent.removeFromRegistry id) = 1 := by
  refine ⟨rfl, ?_, ?_⟩ <;> simp [handle, List.count_cons]

/-- C9 counterexample: a read that fails after yielding the partial byte 0x07
does not behave as if the payload were empty — the handler still calls
`Send` with the partial body, which the empty-payload call never does. -/
theorem c9_partial_read_not_as_if_empty :
    ¬ (send [("a", 1)] "a" [7] (some ()) false none =
       send [("a", 1)] "a" [] none false none) := by
  decide

/-- C9 amended: the `io.ReadAll` error is discarded — the handler's behaviour
is identical with and without the read error, for the same returned bytes
(which may be a non-empty partial body) — and for a registered session the
response written last is still the success acknowledgment. -/
theorem c9_read_error_discarded (reg : Registry) (id : String) (body : List Nat)
    (readErr : Option Unit) (terminate : Bool) (closeErr : Option Unit)
    (sess : SessionRef) :
    send reg id body readErr terminate closeErr =
      send reg id body none terminate closeErr ∧
    (lookupSession reg id = some sess →
      ((send reg id body readErr terminate closeErr).2).getLast? =
        some (Effect.jsonResponse 200 true none)) := by
  refine ⟨rfl, fun h => ?_⟩
  by_cases hb : body.length > 0 <;> cases terminate <;> cases closeErr <;>
    simp [send, h, sendEffectsFound, hb]

/-- C9 witness: with session 1 registered under "a", a failed read returning
partial byte 0x07 behaves exactly as the same bytes without an error, and
the success acknowledgment is still written last. -/
theorem c9_read_error_discarded_witness :
    send [("a", 1)] "a" [7] (some ()) false none =
      send [("a", 1)] "a" [7] none false none ∧
    ((send [("a", 1)] "a" [7] (some ()) false none).2).getLast? =
      some (Effect.jsonResponse 200 true none) :=
  ⟨(c9_read_error_discarded [("a", 1)] "a" [7] (some ()) false none 1).1,
   (c9_read_error_discarded [("a", 1)] "a" [7] (some ()) false none 1).2 rfl⟩

/-- C10: for a registered session, a reply with an empty body and no
termination directive performs no session operation at all — the handler
leaves the registry unchanged and its sole effect is the 200 success
response. -/
theorem c10_empty_body_noop_ack (reg : Registry) (id : String)
    (readErr : Option Unit) (closeErr : Option Unit) (sess : SessionRef)
    (h : lookupSession reg id = some sess) :
    send reg id [] readErr false closeErr = (reg, [Effect.jsonResponse 200 true none]) := by
  simp [send, h, sendEffectsFound]

/-- C10 witness: session 1 registered under "a", empty body, no terminate
header: the handler returns the registry untouched and only the success
acknowledgment. -/
theorem c10_empty_body_noop_ack_witness :
    send [("a", 1)] "a" [] none false none =
      ([("a", 1)], [Effect.jsonResponse 200 true none]) :=
  c10_empty_body_noop_ack [("a", 1)] "a" none none 1 rfl

end Ws2wh
